import Mathlib

/-!
Verification of the watcher subsystem of the auto-coder repository.

The definitions below are a shallow embedding of the TypeScript source:

* `isDuplicate`, `handleEvent` — `src/watcher/Watcher.ts` (`Watcher.isDuplicate`,
  `Watcher.createEventHandler`);
* `executeCalls` — `src/watcher/utils/CommandExecutor.ts` (`CommandExecutor.execute`);
* `generateShortId` and its helpers — `CommandExecutor.generateShortId`,
  `extractShortHash`, `abbreviateType`, `abbreviateAction`, `sanitizeForShell`;
* `webhookServerRespond` — `src/watcher/transport/WebhookServer.ts`;
* the four `*ReactorGetLastComment` functions — the `getLastComment` methods of
  `GitHubReactor`, `GitLabReactor`, `LinearReactor`, `SlackReactor`;
* `pollTick`, `runTicks` — `src/watcher/transport/Poller.ts` (`Poller.poll`);
* `slackValidate` — `src/watcher/providers/slack/SlackWebhook.ts` (`SlackWebhook.validate`);
* `githubShouldProcessEvent`, `gitlabShouldProcessEvent` — the `shouldProcessEvent`
  methods of `GitHubProvider` and `GitLabProvider`;
* `withExponentialRetry` — `src/watcher/utils/retry.ts`.

Asynchronous platform I/O is embedded by passing the observable result of the
underlying call (an `Except` value: the resolved value or the thrown error)
as an explicit argument, and by collecting the calls a routine performs into a
list of actions.
-/

namespace AutoCoder

/-- A comment summary as produced by `Reactor.getLastComment`: the author's
username and the comment body. -/
structure LastComment where
  author : String
  body : String
deriving DecidableEq, Repr

/-- The observable outcome of one run of the per-provider event-handler closure
built by `Watcher.createEventHandler`: whether the event was emitted to
subscribers, whether `CommandExecutor.execute` was invoked, and whether the
manual deduplication marker comment (`markAsProcessed`) was posted. -/
structure HandlerOutcome where
  emitted : Bool
  executedCommand : Bool
  postedMarker : Bool
deriving DecidableEq, Repr

/-- `Watcher.isDuplicate`: reads `reactor.getLastComment()`.  The argument is the
observable result of that call — `.error e` when it throws, `.ok none` when it
resolves to `null`, `.ok (some c)` otherwise.  Returns `false` when there is no
comment, compares the author against the configured identifiers with
`Array.includes` (exact string equality) otherwise, and returns `false` from
the `catch` branch when the read throws. -/
def isDuplicate (botUsernames : List String)
    (lastComment : Except String (Option LastComment)) : Bool :=
  match lastComment with
  | .error _ => false
  | .ok none => false
  | .ok (some c) => botUsernames.contains c.author

/-- The event-handler closure of `Watcher.createEventHandler`: if `isDuplicate`
is true it logs and returns; otherwise it emits the event, then either calls
`CommandExecutor.execute` (when a command executor is configured) or posts the
deduplication marker comment via `markAsProcessed`. -/
def handleEvent (botUsernames : List String) (hasCommandExecutor : Bool)
    (lastComment : Except String (Option LastComment)) : HandlerOutcome :=
  if isDuplicate botUsernames lastComment then
    ⟨false, false, false⟩
  else
    ⟨true, hasCommandExecutor, !hasCommandExecutor⟩

/-- C1: when `getLastComment` returns a non-null comment whose author equals
(case-sensitively) one of the configured bot usernames, the event-handler
closure returns without emitting the event, without invoking the
CommandExecutor, and without posting any comment. -/
theorem c1_bot_comment_skips (botUsernames : List String) (c : LastComment)
    (hasExec : Bool) (h : c.author ∈ botUsernames) :
    handleEvent botUsernames hasExec (.ok (some c)) =
      ⟨false, false, false⟩ := by
  have hdup : isDuplicate botUsernames (.ok (some c)) = true := by
    simpa [isDuplicate] using h
  simp [handleEvent, hdup]

theorem c1_bot_comment_skips_witness :
    "bot" ∈ ["human", "bot"] ∧
      handleEvent ["human", "bot"] true (.ok (some ⟨"bot", "done"⟩)) =
        ⟨false, false, false⟩ :=
  ⟨by decide, c1_bot_comment_skips ["human", "bot"] ⟨"bot", "done"⟩ true (by decide)⟩

/-- C10: when the duplicate check itself fails (the `getLastComment` read
throws), `isDuplicate` returns `false` from its catch branch, so the handler
proceeds: the event is emitted and the command executor is invoked. -/
theorem c10_duplicate_check_fails_open (botUsernames : List String) (e : String) :
    isDuplicate botUsernames (.error e) = false ∧
      handleEvent botUsernames true (.error e) = ⟨true, true, false⟩ := by
  constructor
  · rfl
  · simp [handleEvent, isDuplicate]

/-- One call made through the Reactor interface: `postComment(body)` or
`updateComment(ref, body)`. -/
inductive ReactorCall where
  | post (body : String)
  | update (ref : String) (body : String)
deriving DecidableEq, Repr

/-- The configuration fields of `CommandExecutorConfig` that drive the control
flow of `CommandExecutor.execute`. -/
structure ExecuteConfig where
  enabled : Bool
  dryRun : Bool
  followUp : Bool
deriving DecidableEq, Repr

/-- `CommandExecutor.execute`, embedded as the list of Reactor calls it makes.
`initialPostRef` is the handle string the initial `reactor.postComment` resolves
with (`GitHubReactor` returns `""`, `SlackReactor` returns `"channel:ts"`).
`commandResult` is the observable result of `runCommand`: `.ok stdout` when the
subprocess exits with code 0, `.error e` when it exits non-zero or fails to
spawn.  JavaScript truthiness of the strings (`if (commentRef)`,
`followUp && output`) is the emptiness test. -/
def executeCalls (cfg : ExecuteConfig) (displayString : String)
    (initialPostRef : String) (commandResult : Except String String) :
    List ReactorCall :=
  if !cfg.enabled then []
  else
    let initial := ReactorCall.post ("Agent is working on " ++ displayString)
    if cfg.dryRun then [initial]
    else
      match commandResult with
      | .error _ => [initial]
      | .ok stdout =>
        if cfg.followUp && !(stdout == "") then
          if !(initialPostRef == "") then
            [initial, ReactorCall.update initialPostRef stdout]
          else
            [initial, ReactorCall.post stdout]
        else [initial]

theorem c2_follow_up_counterexample :
    executeCalls ⟨true, false, true⟩ "C01#0" "C01:1700000000.0001" (.ok "done") =
      [ReactorCall.post ("Agent is working on " ++ "C01#0"),
       ReactorCall.update "C01:1700000000.0001" "done"] ∧
      ReactorCall.post "done" ∉
        executeCalls ⟨true, false, true⟩ "C01#0" "C01:1700000000.0001" (.ok "done") := by
  constructor
  · rfl
  · decide

/-- C2 (amended): on exit code 0 with `followUp` enabled and non-empty stdout,
the follow-up goes through `updateComment(initialRef, stdout)` whenever the
initial `postComment` resolved with a non-empty handle, and only falls back to
`postComment(stdout)` when the handle was the empty string (as `GitHubReactor`
returns). -/
theorem c2_follow_up_update_or_post (displayString initialRef stdout : String)
    (h : stdout ≠ "") :
    executeCalls ⟨true, false, true⟩ displayString initialRef (.ok stdout) =
      if initialRef = "" then
        [ReactorCall.post ("Agent is working on " ++ displayString),
         ReactorCall.post stdout]
      else
        [ReactorCall.post ("Agent is working on " ++ displayString),
         ReactorCall.update initialRef stdout] := by
  by_cases href : initialRef = "" <;>
    simp [executeCalls, href, h]

theorem c2_follow_up_update_or_post_witness :
    ("ok" : String) ≠ "" ∧
      executeCalls ⟨true, false, true⟩ "o/r#42" "" (.ok "ok") =
        [ReactorCall.post ("Agent is working on " ++ "o/r#42"),
         ReactorCall.post "ok"] :=
  ⟨by decide, by
    have h := c2_follow_up_update_or_post "o/r#42" "" "ok" (by decide)
    simpa using h⟩

/-- A note/comment as returned by the GitLab notes API (`GitLabComments.getComments`):
the author's username and the body. -/
structure GitLabNote where
  authorUsername : String
  body : String
deriving DecidableEq, Repr

/-- A comment as returned by the Linear GraphQL API (`LinearComments.getComments`):
the commenting user's `name` and the body. -/
structure LinearComment where
  userName : String
  body : String
deriving DecidableEq, Repr

/-- A message as returned by the Slack conversations API
(`SlackComments.getLastMessage`): the posting user and the text. -/
structure SlackMessage where
  user : String
  text : String
deriving DecidableEq, Repr

/-- `GitHubReactor.getLastComment`: delegates to `GitHubComments.getLastComment`
(whose observable result is the argument) and, in its `catch` branch, logs the
error and returns `null`. -/
def githubReactorGetLastComment (api : Except String (Option LastComment)) :
    Except String (Option LastComment) :=
  match api with
  | .error _ => .ok none
  | .ok none => .ok none
  | .ok (some c) => .ok (some ⟨c.author, c.body⟩)

/-- `GitLabReactor.getLastComment`: takes the chronologically ordered note list
from `GitLabComments.getComments`, returns `null` on an empty list, the last
note's `{author: username, body}` otherwise, and in its `catch` branch logs the
error and rethrows it. -/
def gitlabReactorGetLastComment (api : Except String (List GitLabNote)) :
    Except String (Option LastComment) :=
  match api with
  | .error e => .error e
  | .ok notes =>
    match notes.getLast? with
    | none => .ok none
    | some n => .ok (some ⟨n.authorUsername, n.body⟩)

/-- `LinearReactor.getLastComment`: takes the comment list from
`LinearComments.getComments`, returns `null` on an empty list, the last
comment's `{author: user.name, body}` otherwise, and in its `catch` branch logs
the error and rethrows it. -/
def linearReactorGetLastComment (api : Except String (List LinearComment)) :
    Except String (Option LastComment) :=
  match api with
  | .error e => .error e
  | .ok comments =>
    match comments.getLast? with
    | none => .ok none
    | some c => .ok (some ⟨c.userName, c.body⟩)

/-- `SlackReactor.getLastComment`: delegates to `SlackComments.getLastMessage`,
returns `null` when no message is found, `{author: user, body: text}` otherwise,
and in its `catch` branch logs the error and rethrows it. -/
def slackReactorGetLastComment (api : Except String (Option SlackMessage)) :
    Except String (Option LastComment) :=
  match api with
  | .error e => .error e
  | .ok none => .ok none
  | .ok (some m) => .ok (some ⟨m.user, m.text⟩)

theorem c6_slack_rethrows_counterexample :
    slackReactorGetLastComment (.error "network error") =
      .error "network error" := by
  rfl

/-- C6 (amended): only `GitHubReactor.getLastComment` swallows a retrieval
failure and returns `null`; the GitLab, Linear and Slack reactors log the error
and rethrow it to the caller (where `Watcher.isDuplicate` in turn catches it). -/
theorem c6_get_last_comment_error_behavior (e : String) :
    githubReactorGetLastComment (.error e) = .ok none ∧
      gitlabReactorGetLastComment (.error e) = .error e ∧
      linearReactorGetLastComment (.error e) = .error e ∧
      slackReactorGetLastComment (.error e) = .error e :=
  ⟨rfl, rfl, rfl, rfl⟩

/-- The fields of a `NormalizedEvent` consulted by the providers' shared
`shouldProcessEvent` filters: resource kind, action verb and resource state. -/
structure FilterEvent where
  type : String
  action : String
  state : String
deriving DecidableEq, Repr

/-- `GitHubProvider.shouldProcessEvent`: skips `action === 'opened'`; for
`pull_request` skips `synchronize` and, for polled events, the case with
`hasRecentComments === false`; skips the listed metadata-only PR actions; skips
closed resources unless the action is `reopened`.  `hasRecentComments` is the
optional second parameter (absent on the webhook path). -/
def githubShouldProcessEvent (e : FilterEvent)
    (hasRecentComments : Option Bool) : Bool :=
  if e.action == "opened" then false
  else if e.type == "pull_request" && e.action == "synchronize" then false
  else if e.type == "pull_request" && e.action == "poll" &&
      hasRecentComments == some false then false
  else if e.type == "pull_request" &&
      (["edited", "labeled", "unlabeled", "assigned", "unassigned",
        "locked", "unlocked"].contains e.action) then false
  else if e.state == "closed" && e.action != "reopened" then false
  else true

/-- `GitLabProvider.shouldProcessEvent`: skips `action === 'open'`; for
`merge_request` skips `update` and, for polled events, the case with
`hasRecentNotes === false`; skips closed resources unless the action is
`reopen`. -/
def gitlabShouldProcessEvent (e : FilterEvent)
    (hasRecentNotes : Option Bool) : Bool :=
  if e.action == "open" then false
  else if e.type == "merge_request" && e.action == "update" then false
  else if e.type == "merge_request" && e.action == "poll" &&
      hasRecentNotes == some false then false
  else if e.state == "closed" && e.action != "reopen" then false
  else true

theorem c3_opened_filter_counterexample :
    githubShouldProcessEvent ⟨"issue", "open", "open"⟩ none = true ∧
      gitlabShouldProcessEvent ⟨"issue", "opened", "opened"⟩ none = true := by
  decide

/-- C3 (amended): each provider drops, before any emission, the events carrying
its own platform's freshly-opened action spelling, regardless of resource type:
GitHub drops `action == "opened"` and GitLab drops `action == "open"`, on both
the webhook and the polled path (the filter runs before the event handler is
invoked). -/
theorem c3_opened_events_dropped (e : FilterEvent) (activity : Option Bool) :
    (e.action = "opened" → githubShouldProcessEvent e activity = false) ∧
      (e.action = "open" → gitlabShouldProcessEvent e activity = false) := by
  constructor
  · intro h
    simp [githubShouldProcessEvent, h]
  · intro h
    simp [gitlabShouldProcessEvent, h]

theorem c3_opened_events_dropped_witness :
    githubShouldProcessEvent ⟨"issue", "opened", "open"⟩ none = false ∧
      gitlabShouldProcessEvent ⟨"merge_request", "open", "opened"⟩ none = false :=
  ⟨(c3_opened_events_dropped ⟨"issue", "opened", "open"⟩ none).1 rfl,
   (c3_opened_events_dropped ⟨"merge_request", "open", "opened"⟩ none).2 rfl⟩

/-- HTTP request methods that the webhook server model distinguishes. -/
inductive HttpMethod where
  | get
  | post
deriving DecidableEq, Repr

/-- An incoming HTTP request, by method and path. -/
structure HttpRequest where
  method : HttpMethod
  path : String
deriving DecidableEq, Repr

/-- The response bodies the `WebhookServer` express app produces itself:
`{status:"ok"}` from the health route, `{error:"Server is shutting down"}` from
the draining middleware, and express's default not-found reply.  Bodies from a
registered provider webhook handler are abstracted by `fromHandler`. -/
inductive HttpBodyKind where
  | statusOk
  | shutdownError
  | notFound
  | fromHandler
deriving DecidableEq, Repr

/-- An HTTP response: status code and body kind. -/
structure HttpResponse where
  status : Nat
  body : HttpBodyKind
deriving DecidableEq, Repr

/-- The `WebhookServer` express app, in middleware registration order: the JSON
body parser (no observable effect here), then the draining middleware that
answers 503 whenever `shuttingDown` is set, then `GET /health`, then the
registered `POST {basePath}/webhook/{provider}` routes (their responses given by
`handlerResponse`), then express's default 404. -/
def webhookServerRespond (shuttingDown : Bool) (webhookPaths : List String)
    (handlerResponse : String → HttpResponse) (req : HttpRequest) :
    HttpResponse :=
  if shuttingDown then ⟨503, .shutdownError⟩
  else if req.method == HttpMethod.get && req.path == "/health" then
    ⟨200, .statusOk⟩
  else if req.method == HttpMethod.post && webhookPaths.contains req.path then
    handlerResponse req.path
  else ⟨404, .notFound⟩

theorem c5_health_during_drain_counterexample :
    webhookServerRespond true ["/webhook/github"]
        (fun _ => ⟨202, .fromHandler⟩) ⟨HttpMethod.get, "/health"⟩ =
      ⟨503, .shutdownError⟩ ∧
      (webhookServerRespond true ["/webhook/github"]
          (fun _ => ⟨202, .fromHandler⟩) ⟨HttpMethod.get, "/health"⟩).status ≠ 200 := by
  exact ⟨rfl, by decide⟩

/-- C5 (amended): the draining middleware precedes every route, so after
`stop()` sets the shutting-down flag and while the listener is still open,
every request — webhook POSTs and `GET /health` alike — is answered with HTTP
503; `GET /health` is answered 200 only while the server is not draining. -/
theorem c5_drain_rejects_everything (webhookPaths : List String)
    (handlerResponse : String → HttpResponse) (req : HttpRequest) :
    webhookServerRespond true webhookPaths handlerResponse req =
        ⟨503, .shutdownError⟩ ∧
      webhookServerRespond false webhookPaths handlerResponse
          ⟨HttpMethod.get, "/health"⟩ = ⟨200, .statusOk⟩ := by
  constructor
  · rfl
  · rfl

/-- The per-poller state of `transport/Poller.ts`: whether the interval timer is
installed (`intervalId !== undefined`, exposed as `isRunning`) and the
consecutive-failure counter `errorCount`. -/
structure PollerState where
  intervalActive : Bool
  errorCount : Nat
deriving DecidableEq, Repr

/-- `Poller.maxErrorCount`. -/
def maxErrorCount : Nat := 5

/-- `Poller.baseBackoff` in milliseconds. -/
def baseBackoff : Nat := 1000

/-- The observable effect of one `Poller.poll` invocation: the new state,
whether `provider.poll` was called, and how long the failure back-off slept
(0 when there was no failure). -/
structure TickResult where
  state : PollerState
  polled : Bool
  backoffMs : Nat
deriving DecidableEq, Repr

/-- One timer-driven `Poller.poll` invocation (the single-flight `polling` guard
is not modelled; ticks are taken sequentially).  With the timer cleared nothing
runs; with `errorCount >= maxErrorCount` the poller calls `stop()` — clearing
the timer — without polling; otherwise it calls `provider.poll`, resetting
`errorCount` to 0 on success and, on failure, incrementing it and sleeping
`min(baseBackoff * 2^(errorCount-1), 60000)` ms (with `errorCount` the
incremented value). -/
def pollTick (s : PollerState) (pollSucceeds : Bool) : TickResult :=
  if !s.intervalActive then ⟨s, false, 0⟩
  else if maxErrorCount ≤ s.errorCount then ⟨⟨false, s.errorCount⟩, false, 0⟩
  else if pollSucceeds then ⟨⟨s.intervalActive, 0⟩, true, 0⟩
  else ⟨⟨s.intervalActive, s.errorCount + 1⟩, true,
    min (baseBackoff * 2 ^ s.errorCount) 60000⟩

/-- The poller state after a sequence of tick outcomes. -/
def runTicks (s : PollerState) (outcomes : List Bool) : PollerState :=
  outcomes.foldl (fun st o => (pollTick st o).state) s

/-- C7: with the timer active and below the failure threshold, a successful tick
resets `errorCount` to 0 and a failed tick increments it and backs off
`min(1000 * 2^(newErrorCount - 1), cap)` ms; five consecutive failures from a
clean state leave `errorCount = 5`, after which the first tick disables the
poller (no `provider.poll` call, `isRunning` becomes false) and every tick from
a disabled state neither polls nor changes the state. -/
theorem c7_poller_backoff_and_disable (s : PollerState) (n : Nat) (o : Bool)
    (hact : s.intervalActive = true) (hlt : s.errorCount < maxErrorCount) :
    pollTick s true = ⟨⟨true, 0⟩, true, 0⟩ ∧
      pollTick s false = ⟨⟨true, s.errorCount + 1⟩, true,
        min (baseBackoff * 2 ^ ((s.errorCount + 1) - 1)) 60000⟩ ∧
      runTicks ⟨true, 0⟩ [false, false, false, false, false] = ⟨true, 5⟩ ∧
      pollTick ⟨true, 5⟩ o = ⟨⟨false, 5⟩, false, 0⟩ ∧
      pollTick ⟨false, n⟩ o = ⟨⟨false, n⟩, false, 0⟩ := by
  have hnot : ¬ maxErrorCount ≤ s.errorCount := Nat.not_le.mpr hlt
  refine ⟨?_, ?_, ?_, ?_, ?_⟩
  · simp [pollTick, hact, hnot]
  · simp [pollTick, hact, hnot]
  · decide
  · cases o <;> decide
  · cases o <;> simp [pollTick]

theorem c7_poller_backoff_and_disable_witness :
    (PollerState.mk true 3).intervalActive = true ∧
      (PollerState.mk true 3).errorCount < maxErrorCount ∧
      pollTick ⟨true, 3⟩ false = ⟨⟨true, 4⟩, true,
        min (baseBackoff * 2 ^ ((3 + 1) - 1)) 60000⟩ ∧
      pollTick ⟨true, 5⟩ false = ⟨⟨false, 5⟩, false, 0⟩ :=
  ⟨rfl, by decide,
    (c7_poller_backoff_and_disable ⟨true, 3⟩ 0 false rfl (by decide)).2.1,
    (c7_poller_backoff_and_disable ⟨true, 3⟩ 0 false rfl (by decide)).2.2.2.1⟩

/-- The outcomes of `SlackWebhook.validate`, one constructor per distinct
`{valid, error?, challenge?}` result the source produces. -/
inductive SlackValidateOutcome where
  | challengeAccepted (challenge : String)
  | invalidMissingChallenge
  | invalidMissingTimestamp
  | invalidMissingSignature
  | invalidReplay
  | invalidSignature
  | valid
deriving DecidableEq, Repr

/-- `SlackWebhook.validate`.  `bodyType`/`bodyChallenge` are the `type` and
`challenge` fields of the parsed body; `timestampHeader` is the parsed integer
value of `x-slack-request-timestamp` when the header is present;
`signaturePresent` records whether `x-slack-signature` is present; `now` is
`Math.floor(Date.now() / 1000)`; `signatureMatches` is the outcome of the
HMAC comparison done by `verifySignature`.  A `url_verification` body
short-circuits; with no signing secret configured the request is accepted;
otherwise missing headers reject, an absolute skew `|now - ts| > 300` rejects
with "Request timestamp too old", and finally the signature decides. -/
def slackValidate (signingSecret : Option String) (bodyType : Option String)
    (bodyChallenge : Option String) (timestampHeader : Option Int)
    (signaturePresent : Bool) (now : Int) (signatureMatches : Bool) :
    SlackValidateOutcome :=
  if bodyType == some "url_verification" then
    match bodyChallenge with
    | none => .invalidMissingChallenge
    | some c => .challengeAccepted c
  else
    match signingSecret with
    | none => .valid
    | some _ =>
      match timestampHeader with
      | none => .invalidMissingTimestamp
      | some ts =>
        if !signaturePresent then .invalidMissingSignature
        else if 300 < (now - ts).natAbs then .invalidReplay
        else if !signatureMatches then .invalidSignature
        else .valid

/-- C8: with a signing secret configured and both headers present, the replay
check rejects exactly when the absolute skew exceeds 300 seconds: a skew of
exactly 300 passes the replay check (the outcome is then decided by the
signature), and a skew of 301 is rejected as a replay. -/
theorem c8_replay_window (secret : String) (now ts : Int) (sigOk : Bool) :
    (slackValidate (some secret) none none (some ts) true now sigOk =
        SlackValidateOutcome.invalidReplay ↔ 300 < (now - ts).natAbs) ∧
      ((now - ts).natAbs = 300 →
        slackValidate (some secret) none none (some ts) true now sigOk ≠
          SlackValidateOutcome.invalidReplay) ∧
      ((now - ts).natAbs = 301 →
        slackValidate (some secret) none none (some ts) true now sigOk =
          SlackValidateOutcome.invalidReplay) := by
  refine ⟨⟨?_, ?_⟩, ?_, ?_⟩
  · intro h
    by_contra hgt
    cases sigOk <;> simp [slackValidate, hgt] at h
  · intro h
    simp [slackValidate, h]
  · intro h
    have hgt : ¬ 300 < (now - ts).natAbs := by omega
    cases sigOk <;> simp [slackValidate, hgt, h]
  · intro h
    have hgt : 300 < (now - ts).natAbs := by omega
    simp [slackValidate, hgt]

theorem c8_replay_window_witness :
    ((1700000300 : Int) - 1700000000).natAbs = 300 ∧
      slackValidate (some "secret") none none (some 1700000000) true
          1700000300 true ≠ SlackValidateOutcome.invalidReplay ∧
      ((1700000301 : Int) - 1700000000).natAbs = 301 ∧
      slackValidate (some "secret") none none (some 1700000000) true
          1700000301 true = SlackValidateOutcome.invalidReplay :=
  ⟨by decide,
    (c8_replay_window "secret" 1700000300 1700000000 true).2.1 (by decide),
    by decide,
    (c8_replay_window "secret" 1700000301 1700000000 true).2.2 (by decide)⟩

/-- The character class of the regexes in `CommandExecutor.extractShortHash`
and `sanitizeForShell`: `[a-zA-Z0-9]`. -/
def isAlphanumericChar (c : Char) : Bool :=
  ('a' ≤ c && c ≤ 'z') || ('A' ≤ c && c ≤ 'Z') || ('0' ≤ c && c ≤ '9')

/-- JavaScript `s.substring(0, n)`. -/
def firstChars (n : Nat) (s : String) : String :=
  String.mk (s.toList.take n)

/-- `CommandExecutor.extractShortHash`: strips every non-alphanumeric character
from the event id, takes the last (up to) 6 characters (`slice(-6)`) and
lowercases them. -/
def extractShortHash (eventId : String) : String :=
  String.mk
    (((eventId.toList.filter isAlphanumericChar).reverse.take 6).reverse.map
      Char.toLower)

/-- `CommandExecutor.abbreviateType` (a `switch` on the type string). -/
def abbreviateType (t : String) : String :=
  match t with
  | "issue" => "i"
  | "pull_request" => "pr"
  | "merge_request" => "mr"
  | _ => firstChars 2 t

/-- `CommandExecutor.abbreviateAction` (a `switch` on the action string). -/
def abbreviateAction (a : String) : String :=
  match a with
  | "opened" => "opn"
  | "closed" => "cls"
  | "reopened" => "ropn"
  | "edited" => "edt"
  | "created" => "crt"
  | "deleted" => "del"
  | "comment" => "cmt"
  | "commented" => "cmt"
  | "review_requested" => "rvw"
  | "review" => "rvw"
  | "assigned" => "asgn"
  | "unassigned" => "uasgn"
  | "labeled" => "lbl"
  | "unlabeled" => "ulbl"
  | "synchronize" => "sync"
  | "updated" => "upd"
  | "merged" => "mrg"
  | "poll" => "pol"
  | _ => firstChars 4 a

/-- `event.resource.repository.replace(/\//g, '-')`. -/
def dashRepository (repo : String) : String :=
  String.mk (repo.toList.map fun c => if c == '/' then '-' else c)

/-- The fields of a `NormalizedEvent` consumed by
`CommandExecutor.generateShortId`. -/
structure ShortIdEvent where
  id : String
  provider : String
  type : String
  action : String
  repository : String
  number : Nat
deriving DecidableEq, Repr

/-- `CommandExecutor.generateShortId`:
`{provider}-{repo}-{number}-{typeAbbrev}-{actionAbbrev}-{shortHash}`, the value
of the `EVENT_SHORT_ID` environment variable. -/
def generateShortId (e : ShortIdEvent) : String :=
  e.provider ++ "-" ++ dashRepository e.repository ++ "-" ++
    toString e.number ++ "-" ++ abbreviateType e.type ++ "-" ++
    abbreviateAction e.action ++ "-" ++ extractShortHash e.id

/-- Modelled from the spec wording for comparison: `EVENT_SHORT_ID` as
`{provider}-{repo-with-slashes-as-dashes}-{number}-{last-6-alphanumerics-of-EVENT_ID-lowercased}`,
with no type or action component. -/
def claimShortId (e : ShortIdEvent) : String :=
  e.provider ++ "-" ++ dashRepository e.repository ++ "-" ++
    toString e.number ++ "-" ++ extractShortHash e.id

theorem c4_short_id_counterexample :
    generateShortId ⟨"github:o/r:edited:9:d42", "github", "issue", "edited", "o/r", 42⟩ =
        "github-o-r-42-i-edt-ed9d42" ∧
      generateShortId ⟨"github:o/r:edited:9:d42", "github", "issue", "edited", "o/r", 42⟩ ≠
        claimShortId ⟨"github:o/r:edited:9:d42", "github", "issue", "edited", "o/r", 42⟩ ∧
      ("github".length +
          (dashRepository "o/r").length + (toString (42 : Nat)).length + 6 + 3 <
        (generateShortId
          ⟨"github:o/r:edited:9:d42", "github", "issue", "edited", "o/r", 42⟩).length) := by
  refine ⟨by decide, by decide, by decide⟩

theorem length_string_mk (l : List Char) : (String.mk l).length = l.length :=
  rfl

theorem firstChars_length_le (n : Nat) (s : String) :
    (firstChars n s).length ≤ n := by
  simp [firstChars, length_string_mk]

theorem abbreviateType_length_le (t : String) :
    (abbreviateType t).length ≤ 2 := by
  unfold abbreviateType
  split <;> first
    | decide
    | exact le_trans (firstChars_length_le 2 t) (by decide)

theorem abbreviateAction_length_le (a : String) :
    (abbreviateAction a).length ≤ 5 := by
  unfold abbreviateAction
  split <;> first
    | decide
    | exact le_trans (firstChars_length_le 4 a) (by decide)

theorem extractShortHash_length_le (eventId : String) :
    (extractShortHash eventId).length ≤ 6 := by
  simp [extractShortHash, length_string_mk]

/-- C4 (amended): `EVENT_SHORT_ID` additionally contains an abbreviated type
(at most 2 characters) and an abbreviated action (at most 5 characters) between
the resource number and the 6-character hash, so its length is at most
`len(provider) + len(repo-dashed) + len(number) + 2 + 5 + 6 + 5` (five dash
separators). -/
theorem c4_short_id_length (e : ShortIdEvent) :
    (abbreviateType e.type).length ≤ 2 ∧
      (abbreviateAction e.action).length ≤ 5 ∧
      (extractShortHash e.id).length ≤ 6 ∧
      (generateShortId e).length ≤
        e.provider.length + (dashRepository e.repository).length +
          (toString e.number).length + 2 + 5 + 6 + 5 := by
  refine ⟨abbreviateType_length_le e.type, abbreviateAction_length_le e.action,
    extractShortHash_length_le e.id, ?_⟩
  have ht := abbreviateType_length_le e.type
  have ha := abbreviateAction_length_le e.action
  have hh := extractShortHash_length_le e.id
  have hdash : ("-" : String).length = 1 := rfl
  simp only [generateShortId, String.length_append, hdash]
  omega

/-- A thrown JavaScript error as inspected by the default `shouldRetry`
predicate of `withExponentialRetry`: whether it is a fetch `Response` instance,
and its `status` field when one exists. -/
structure JsError where
  isResponse : Bool
  status : Option Int
deriving DecidableEq, Repr

/-- The default `shouldRetry` of `defaultOptions` in `utils/retry.ts`: a
`Response` is retried exactly when its status is 409; a plain object with a
`status` field is retried exactly when that status is 409; everything else is
not retried. -/
def defaultShouldRetry (e : JsError) : Bool :=
  if e.isResponse then e.status == some 409
  else if e.status == some 409 then true
  else false

/-- The `RetryOptions` record of `utils/retry.ts`, with `shouldRetry` already
resolved to a predicate over the thrown error. -/
structure RetryOptions where
  maxRetries : Nat
  baseDelayMs : Nat
  maxDelayMs : Nat
  shouldRetry : JsError → Bool

/-- `defaultOptions` of `utils/retry.ts`: 5 retries, 1 s base delay, 30 s cap,
the default 409-only predicate. -/
def defaultRetryOptions : RetryOptions :=
  ⟨5, 1000, 30000, defaultShouldRetry⟩

/-- The loop body of `withExponentialRetry`, recursing on the remaining retry
budget (`remaining = maxRetries - attempt`).  `outcomes n` is the observable
result of the n-th invocation of the wrapped function.  A success returns it; a
non-retryable error is rethrown immediately; a retryable error at the last
attempt breaks out and is rethrown; otherwise the loop sleeps
`min(baseDelayMs * 2^attempt, maxDelayMs)` ms (the delay is collected in the
returned list) and tries again. -/
def retryFrom {α : Type} (outcomes : Nat → Except JsError α)
    (opts : RetryOptions) : Nat → Nat → Except JsError α × List Nat
  | attempt, remaining =>
    match outcomes attempt with
    | .ok v => (.ok v, [])
    | .error e =>
      if !opts.shouldRetry e then (.error e, [])
      else
        match remaining with
        | 0 => (.error e, [])
        | r + 1 =>
          let delayMs := min (opts.baseDelayMs * 2 ^ attempt) opts.maxDelayMs
          let rest := retryFrom outcomes opts (attempt + 1) r
          (rest.1, delayMs :: rest.2)

/-- `withExponentialRetry` of `utils/retry.ts`, embedded as the final result
together with the list of back-off delays slept. -/
def withExponentialRetry {α : Type} (outcomes : Nat → Except JsError α)
    (opts : RetryOptions) : Except JsError α × List Nat :=
  retryFrom outcomes opts 0 opts.maxRetries

theorem c9_429_not_retried_counterexample :
    defaultShouldRetry ⟨false, some 429⟩ = false ∧
      withExponentialRetry
          (fun _ => (Except.error ⟨false, some 429⟩ : Except JsError Unit))
          defaultRetryOptions =
        (Except.error ⟨false, some 429⟩, []) := by
  exact ⟨rfl, rfl⟩

/-- C9 (amended): with the default options, `withExponentialRetry` retries only
on HTTP 409 (a `Response` with status 409 or an object carrying `status: 409`),
making up to 5 retries after the initial call with delays
`min(1000 * 2^attempt, 30000)` ms — i.e. 1 s, 2 s, 4 s, 8 s, 16 s — and rethrows
immediately, with no delay, on any other error, HTTP 429 / rate-limit errors
included. -/
theorem c9_default_retry_behavior {α : Type} (outcomes : Nat → Except JsError α)
    (e e409 : JsError) (hnr : defaultShouldRetry e = false)
    (h0 : outcomes 0 = .error e) (hr : defaultShouldRetry e409 = true) :
    withExponentialRetry outcomes defaultRetryOptions = (.error e, []) ∧
      withExponentialRetry
          (fun _ => (Except.error e409 : Except JsError α)) defaultRetryOptions =
        (.error e409, [1000, 2000, 4000, 8000, 16000]) ∧
      defaultShouldRetry ⟨true, some 409⟩ = true ∧
      defaultShouldRetry ⟨false, some 409⟩ = true ∧
      defaultShouldRetry ⟨false, some 429⟩ = false ∧
      defaultShouldRetry ⟨true, some 429⟩ = false ∧
      defaultShouldRetry ⟨false, none⟩ = false := by
  refine ⟨?_, ?_, rfl, rfl, rfl, rfl, rfl⟩
  · simp [withExponentialRetry, defaultRetryOptions, retryFrom, h0, hnr]
  · simp [withExponentialRetry, defaultRetryOptions, retryFrom, hr]

theorem c9_default_retry_behavior_witness :
    defaultShouldRetry ⟨true, some 500⟩ = false ∧
      defaultShouldRetry ⟨false, some 409⟩ = true ∧
      withExponentialRetry
          (fun _ => (Except.error ⟨true, some 500⟩ : Except JsError Unit))
          defaultRetryOptions =
        (Except.error ⟨true, some 500⟩, []) ∧
      withExponentialRetry
          (fun _ => (Except.error ⟨false, some 409⟩ : Except JsError Unit))
          defaultRetryOptions =
        (Except.error ⟨false, some 409⟩, [1000, 2000, 4000, 8000, 16000]) :=
  ⟨by decide, by decide,
    (c9_default_retry_behavior
      (fun _ => (Except.error ⟨true, some 500⟩ : Except JsError Unit))
      ⟨true, some 500⟩ ⟨false, some 409⟩ (by decide) rfl (by decide)).1,
    (c9_default_retry_behavior
      (fun _ => (Except.error ⟨true, some 500⟩ : Except JsError Unit))
      ⟨true, some 500⟩ ⟨false, some 409⟩ (by decide) rfl (by decide)).2.1⟩

end AutoCoder
